import Mathlib

/-!
Verification of the EMRP habitability simulators.

Pipeline A is embedded from `src/embed/My IT Training/index.py`:
the clamp utility, the MCI/BVI/HS formulas and `generate_results`.
Pipeline B is embedded from `src/embed/app.py`:
the MCR/BVI/GEI formulas (with Python's 2-decimal half-to-even
rounding modelled exactly over ℚ) and the session accumulator fed by
the "Run Simulation" button handler.

All numeric values are modelled as exact rationals.
-/

namespace EMRP

/-! ### Pipeline A: constants and core functions (index.py) -/

def SCHUMANN_RESONANCE : ℚ := 7.83

def MAX_FREQ_TOLERANCE : ℚ := 2.5

/-- `clamp(value, min_value=0.0, max_value=1.0)`.  The Python defaults are
supplied explicitly at every call site below (all call sites in the source
use the defaults `0.0`, `1.0`). -/
def clamp (value min_value max_value : ℚ) : ℚ :=
  max (min value max_value) min_value

/-- `calculate_MCI(freq, emf)` from index.py. -/
def calculate_MCI (freq emf : ℚ) : ℚ :=
  let diff := |freq - SCHUMANN_RESONANCE|
  let score := if diff ≤ MAX_FREQ_TOLERANCE then 1 - diff / MAX_FREQ_TOLERANCE else 0
  clamp (score * (1 - emf)) 0 1

/-- `calculate_BVI(MCI)` from index.py. -/
def calculate_BVI (MCI : ℚ) : ℚ :=
  clamp (MCI ^ 2) 0 1

/-- `calculate_HS(MCI, BVI, env_factor)` from index.py. -/
def calculate_HS (MCI BVI env_factor : ℚ) : ℚ :=
  clamp (0.5 * MCI + 0.4 * BVI + 0.1 * env_factor) 0 1

/-- The custom-input dictionary `{"Frequency": .., "EMF": .., "Env Factor": ..}`. -/
structure CustomInput where
  Frequency : ℚ
  EMF : ℚ
  EnvFactor : ℚ
deriving DecidableEq

/-- One row of the result table: the environment dictionary after the
`for env in presets` loop has added the derived `MCI`, `BVI`, `HS` keys. -/
structure EnvRow where
  Environment : String
  Frequency : ℚ
  EMF : ℚ
  EnvFactor : ℚ
  MCI : ℚ
  BVI : ℚ
  HS : ℚ
deriving DecidableEq

/-- The body of the `for env in presets` loop in `generate_results`:
score one environment record. -/
def scoreEnv (env : String) (freq emf env_factor : ℚ) : EnvRow :=
  let mci := calculate_MCI freq emf
  let bvi := calculate_BVI mci
  let hs := calculate_HS mci bvi env_factor
  ⟨env, freq, emf, env_factor, mci, bvi, hs⟩

/-- `generate_results(custom_input)` from index.py: the four hardcoded
presets plus the "Custom Input" row, each scored by the loop. -/
def generate_results (custom_input : CustomInput) : List EnvRow :=
  [scoreEnv "Earth" 7.83 0.2 0.9,
   scoreEnv "Mars" 2.1 0.05 0.3,
   scoreEnv "EMRP Bubble" 7.8 0.01 1.0,
   scoreEnv "Urban Earth" 6.9 0.6 0.7,
   scoreEnv "Custom Input" custom_input.Frequency custom_input.EMF custom_input.EnvFactor]

/-! ### Pipeline B: metric functions (app.py) -/

/-- Python's `round` to an integer: round half to even (banker's rounding),
exact over ℚ. -/
def roundHalfEven (x : ℚ) : ℤ :=
  if x - ⌊x⌋ < 1 / 2 then ⌊x⌋
  else if 1 / 2 < x - ⌊x⌋ then ⌊x⌋ + 1
  else if ⌊x⌋ % 2 = 0 then ⌊x⌋ else ⌊x⌋ + 1

/-- Python's `round(x, 2)`: round to 2 decimal places, half to even. -/
def round2 (x : ℚ) : ℚ :=
  (roundHalfEven (x * 100) : ℚ) / 100

/-- `calculate_mcr(magnetic_field_strength)` from app.py. -/
def calculate_mcr (magnetic_field_strength : ℚ) : ℚ :=
  round2 (magnetic_field_strength / 100)

/-- `calculate_bvi(mcr, atmospheric_pressure)` from app.py. -/
def calculate_bvi (mcr atmospheric_pressure : ℚ) : ℚ :=
  round2 ((mcr * atmospheric_pressure) / 50000)

/-- `calculate_gei(solar_flux)` from app.py. -/
def calculate_gei (solar_flux : ℚ) : ℚ :=
  round2 (100 - solar_flux / 10)

/-- The three numeric inputs plus selected planet for one simulation run. -/
structure SimInputs where
  planet : String
  magnetic_field : ℚ
  atmospheric_pressure : ℚ
  solar_flux : ℚ
deriving DecidableEq

/-- One record appended to `st.session_state.simulation_results`. -/
structure SimRecord where
  Planet : String
  magnetic_field : ℚ
  atmospheric_pressure : ℚ
  solar_flux : ℚ
  MCR : ℚ
  BVI : ℚ
  GEI : ℚ
deriving DecidableEq

/-- The record built inside the "Run Simulation" button handler. -/
def mkSimRecord (i : SimInputs) : SimRecord :=
  let mcr := calculate_mcr i.magnetic_field
  let bvi := calculate_bvi mcr i.atmospheric_pressure
  let gei := calculate_gei i.solar_flux
  ⟨i.planet, i.magnetic_field, i.atmospheric_pressure, i.solar_flux, mcr, bvi, gei⟩

/-- One "Run Simulation" button press: compute the metrics and
`append` the record to the session-state list. -/
def runSimulation (state : List SimRecord) (i : SimInputs) : List SimRecord :=
  state ++ [mkSimRecord i]

/-- A whole session: fold the run handler over a sequence of button presses. -/
def runAll (state : List SimRecord) (actions : List SimInputs) : List SimRecord :=
  actions.foldl runSimulation state

/-! ### Spec-side definition for the MCI refinement claim -/

/-- The MCI formula exactly as the spec words it (spec §4.2): `diff = |freq − 7.83|`;
if `diff ≤ 2.5` then `score = 1 − diff/2.5` else `score = 0`;
return `clamp(score × (1 − emf))`. -/
def MCI_spec (freq emf : ℚ) : ℚ :=
  let diff := |freq - 7.83|
  let score := if diff ≤ 2.5 then 1 - diff / 2.5 else 0
  clamp (score * (1 - emf)) 0 1

/-! ### Helper lemmas -/

lemma clamp_unit_interval (x : ℚ) : 0 ≤ clamp x 0 1 ∧ clamp x 0 1 ≤ 1 :=
  ⟨le_max_right _ _, max_le (min_le_right _ _) (by norm_num)⟩

lemma clamp_eq_zero_of_nonpos (x : ℚ) (hx : x ≤ 0) : clamp x 0 1 = 0 :=
  max_eq_right (le_trans (min_le_left _ _) hx)

lemma roundHalfEven_nonneg (x : ℚ) (hx : 0 ≤ x) : 0 ≤ roundHalfEven x := by
  have h0 : (0 : ℤ) ≤ ⌊x⌋ := Int.floor_nonneg.mpr hx
  unfold roundHalfEven
  split_ifs <;> omega

lemma roundHalfEven_intCast (z : ℤ) : roundHalfEven (z : ℚ) = z := by
  unfold roundHalfEven
  rw [Int.floor_intCast]
  norm_num

lemma roundHalfEven_neg (x : ℚ) (hx : x < -(1 / 2)) : roundHalfEven x < 0 := by
  have hf : ⌊x⌋ ≤ -1 := by
    have h1 : (⌊x⌋ : ℚ) ≤ x := Int.floor_le x
    have h2 : (⌊x⌋ : ℚ) < 0 := lt_of_le_of_lt h1 (by linarith)
    have h3 : ⌊x⌋ < 0 := by exact_mod_cast h2
    omega
  by_cases h2 : ⌊x⌋ ≤ -2
  · unfold roundHalfEven
    split_ifs <;> omega
  · have hfe : ⌊x⌋ = -1 := by omega
    have hr : x - ⌊x⌋ < 1 / 2 := by
      rw [hfe]
      push_cast
      linarith
    unfold roundHalfEven
    rw [if_pos hr, hfe]
    norm_num

lemma round2_nonneg (x : ℚ) (hx : 0 ≤ x) : 0 ≤ round2 x := by
  unfold round2
  have h := roundHalfEven_nonneg (x * 100) (by linarith)
  positivity

lemma round2_neg (x : ℚ) (hx : x * 100 < -(1 / 2)) : round2 x < 0 := by
  unfold round2
  have h := roundHalfEven_neg (x * 100) hx
  have h2 : ((roundHalfEven (x * 100) : ℚ)) < 0 := by exact_mod_cast h
  linarith [h2]

lemma round2_intCast (z : ℤ) : round2 (z : ℚ) = z := by
  unfold round2
  have h1 : (z : ℚ) * 100 = ((z * 100 : ℤ) : ℚ) := by push_cast; ring
  rw [h1, roundHalfEven_intCast]
  push_cast
  field_simp

lemma runAll_eq (actions : List SimInputs) :
    ∀ s : List SimRecord, runAll s actions = s ++ actions.map mkSimRecord := by
  induction actions with
  | nil => intro s; simp [runAll]
  | cons a t ih =>
    intro s
    show runAll (runSimulation s a) t = _
    rw [ih]
    simp [runSimulation]

/-! ### Claim theorems -/

/-- C1: `calculate_MCI(freq, emf)` computes `diff = |freq − 7.83|`,
`score = 1 − diff/2.5` when `diff ≤ 2.5` and `0` otherwise, and returns
`clamp(score × (1 − emf), 0, 1)`; in particular it is `0` whenever
`|freq − 7.83| > 2.5`, for every `emf`, and `calculate_MCI(7.83, 0) = 1`. -/
theorem mci_matches_spec (freq emf : ℚ) :
    calculate_MCI freq emf = MCI_spec freq emf ∧
    (MAX_FREQ_TOLERANCE < |freq - SCHUMANN_RESONANCE| → calculate_MCI freq emf = 0) ∧
    calculate_MCI SCHUMANN_RESONANCE 0 = 1 := by
  refine ⟨rfl, ?_, ?_⟩
  · intro h
    show clamp ((if |freq - SCHUMANN_RESONANCE| ≤ MAX_FREQ_TOLERANCE
        then 1 - |freq - SCHUMANN_RESONANCE| / MAX_FREQ_TOLERANCE else 0) * (1 - emf)) 0 1 = 0
    rw [if_neg (not_le.mpr h), zero_mul]
    exact clamp_eq_zero_of_nonpos 0 le_rfl
  · norm_num [calculate_MCI, clamp, SCHUMANN_RESONANCE, MAX_FREQ_TOLERANCE]

/-- Witness for C1: at `freq = 15`, `emf = 0` the tolerance hypothesis holds
and the MCI is `0`. -/
theorem mci_matches_spec_witness :
    MAX_FREQ_TOLERANCE < |(15 : ℚ) - SCHUMANN_RESONANCE| ∧ calculate_MCI 15 0 = 0 := by
  have habs : MAX_FREQ_TOLERANCE < |(15 : ℚ) - SCHUMANN_RESONANCE| :=
    lt_abs.mpr (Or.inl (by norm_num [SCHUMANN_RESONANCE, MAX_FREQ_TOLERANCE]))
  exact ⟨habs, (mci_matches_spec 15 0).2.1 habs⟩

/-- C2: for every custom input, the Earth row of `generate_results` has
exactly `MCI = 0.8`, `BVI = 0.64`, `HS = 0.746`. -/
theorem earth_row_values (custom_input : CustomInput) :
    ((generate_results custom_input).head?).map (fun r => (r.MCI, r.BVI, r.HS)) =
      some (0.8, 0.64, 0.746) := by
  have h : (generate_results custom_input).head? = some (scoreEnv "Earth" 7.83 0.2 0.9) := rfl
  rw [h]
  norm_num [scoreEnv, calculate_MCI, calculate_BVI, calculate_HS, clamp,
    SCHUMANN_RESONANCE, MAX_FREQ_TOLERANCE, min_def, max_def, Prod.ext_iff]

/-- C3: for every rational input, `calculate_MCI`, `calculate_BVI` and
`calculate_HS` each return a value in `[0, 1]`. -/
theorem pipelineA_scores_in_unit_interval (freq emf m b e : ℚ) :
    (0 ≤ calculate_MCI freq emf ∧ calculate_MCI freq emf ≤ 1) ∧
    (0 ≤ calculate_BVI m ∧ calculate_BVI m ≤ 1) ∧
    (0 ≤ calculate_HS m b e ∧ calculate_HS m b e ≤ 1) :=
  ⟨clamp_unit_interval _, clamp_unit_interval _, clamp_unit_interval _⟩

/-- C4: the session accumulator is append-only: a sequence of "Run Simulation"
actions appends exactly one record per action, in call order, unconditionally;
`N` identical inputs give `N` identical-valued records; existing records are
never changed. -/
theorem session_append_only (s : List SimRecord) (actions : List SimInputs)
    (n : ℕ) (i : SimInputs) :
    runAll s actions = s ++ actions.map mkSimRecord ∧
    (runAll [] actions).length = actions.length ∧
    runAll [] (List.replicate n i) = List.replicate n (mkSimRecord i) := by
  refine ⟨runAll_eq actions s, ?_, ?_⟩
  · rw [runAll_eq]
    simp
  · rw [runAll_eq]
    simp [List.map_replicate]

/-- C5: the Pipeline B point values: `calculate_mcr(50.0) = 0.5`,
`calculate_bvi(0.5, 101325) = 1.01`, `calculate_gei(1361) = -36.1`. -/
theorem pipelineB_point_values :
    calculate_mcr 50.0 = 0.5 ∧ calculate_bvi 0.5 101325 = 1.01 ∧
    calculate_gei 1361 = -36.1 := by
  refine ⟨?_, ?_, ?_⟩ <;>
    norm_num [calculate_mcr, calculate_bvi, calculate_gei, round2, roundHalfEven]

/-- Counterexample to C6 as stated: `1000.01 > 1000`, yet
`calculate_gei 1000.01 = 0`, not negative (rounding sends `-0.001` to `0`). -/
theorem gei_zero_just_above_1000 :
    (1000 : ℚ) < 1000.01 ∧ calculate_gei 1000.01 = 0 := by
  refine ⟨by norm_num, ?_⟩
  norm_num [calculate_gei, round2, roundHalfEven]

/-- C6 (amended): `calculate_gei(solar_flux) = round(100 − solar_flux/10, 2)`;
it is not clamped and unbounded below, and it is negative whenever
`solar_flux > 1000.05` (for `solar_flux` in `(1000, 1000.05]` the 2-decimal
rounding yields exactly `0`). -/
theorem gei_unbounded_negative (solar_flux : ℚ) :
    calculate_gei solar_flux = round2 (100 - solar_flux / 10) ∧
    (1000.05 < solar_flux → calculate_gei solar_flux < 0) ∧
    (∀ B : ℚ, ∃ s, calculate_gei s < B) ∧
    calculate_gei 0 = 100 := by
  refine ⟨rfl, ?_, ?_, by norm_num [calculate_gei, round2, roundHalfEven]⟩
  · intro h
    apply round2_neg
    nlinarith
  · intro B
    obtain ⟨n, hn⟩ := exists_nat_gt ((100 - B) / 100)
    refine ⟨1000 * (n : ℚ), ?_⟩
    have h1 : (100 : ℚ) - 1000 * (n : ℚ) / 10 = ((100 - 100 * (n : ℤ) : ℤ) : ℚ) := by
      push_cast
      ring
    have h2 : calculate_gei (1000 * (n : ℚ)) = ((100 - 100 * (n : ℤ) : ℤ) : ℚ) := by
      rw [calculate_gei, h1, round2_intCast]
    rw [h2]
    push_cast
    linarith

/-- Witness for C6 (amended): at `solar_flux = 1361` the hypothesis holds and
the GEI is negative. -/
theorem gei_unbounded_negative_witness :
    (1000.05 : ℚ) < 1361 ∧ calculate_gei 1361 < 0 :=
  ⟨by norm_num, (gei_unbounded_negative 1361).2.1 (by norm_num)⟩

/-- C7: `generate_results` returns exactly 5 rows, named Earth, Mars,
"EMRP Bubble", "Urban Earth", "Custom Input", and in every row the derived
MCI, BVI and HS equal the three formulas applied in order to that row's
frequency, EMF and environment factor. -/
theorem generate_results_shape (custom_input : CustomInput) :
    (generate_results custom_input).length = 5 ∧
    (generate_results custom_input).map EnvRow.Environment =
      ["Earth", "Mars", "EMRP Bubble", "Urban Earth", "Custom Input"] ∧
    ∀ r ∈ generate_results custom_input,
      r.MCI = calculate_MCI r.Frequency r.EMF ∧
      r.BVI = calculate_BVI r.MCI ∧
      r.HS = calculate_HS r.MCI r.BVI r.EnvFactor := by
  refine ⟨rfl, rfl, ?_⟩
  intro r hr
  simp only [generate_results, List.mem_cons, List.not_mem_nil, or_false] at hr
  rcases hr with h | h | h | h | h <;> subst h <;> exact ⟨rfl, rfl, rfl⟩

/-- Witness for C7: the membership hypothesis discharged at the Earth row of
the default custom input. -/
theorem generate_results_shape_witness :
    (scoreEnv "Earth" 7.83 0.2 0.9).MCI =
      calculate_MCI (scoreEnv "Earth" 7.83 0.2 0.9).Frequency
        (scoreEnv "Earth" 7.83 0.2 0.9).EMF ∧
    (scoreEnv "Earth" 7.83 0.2 0.9).BVI =
      calculate_BVI (scoreEnv "Earth" 7.83 0.2 0.9).MCI ∧
    (scoreEnv "Earth" 7.83 0.2 0.9).HS =
      calculate_HS (scoreEnv "Earth" 7.83 0.2 0.9).MCI
        (scoreEnv "Earth" 7.83 0.2 0.9).BVI (scoreEnv "Earth" 7.83 0.2 0.9).EnvFactor :=
  (generate_results_shape ⟨7.83, 0.2, 0.9⟩).2.2 (scoreEnv "Earth" 7.83 0.2 0.9)
    (by simp [generate_results])

/-- C8: the first four rows of `generate_results` are the fixed presets
Earth (7.83, 0.2, 0.9), Mars (2.1, 0.05, 0.3), EMRP Bubble (7.8, 0.01, 1.0),
Urban Earth (6.9, 0.6, 0.7), identical for every two custom inputs; the
custom input affects only the fifth row. -/
theorem preset_rows_fixed (c₁ c₂ : CustomInput) :
    (generate_results c₁).take 4 = (generate_results c₂).take 4 ∧
    (generate_results c₁).take 4 =
      [scoreEnv "Earth" 7.83 0.2 0.9, scoreEnv "Mars" 2.1 0.05 0.3,
       scoreEnv "EMRP Bubble" 7.8 0.01 1.0, scoreEnv "Urban Earth" 6.9 0.6 0.7] ∧
    (generate_results c₁).drop 4 =
      [scoreEnv "Custom Input" c₁.Frequency c₁.EMF c₁.EnvFactor] :=
  ⟨rfl, rfl, rfl⟩

/-- C9: for every frequency and every `emf ≥ 1`, `calculate_MCI` returns `0`:
the non-negative score times the non-positive `1 − emf` is clamped up to `0`. -/
theorem mci_zero_for_full_noise (freq emf : ℚ) (h : 1 ≤ emf) :
    calculate_MCI freq emf = 0 := by
  have hscore : 0 ≤ (if |freq - SCHUMANN_RESONANCE| ≤ MAX_FREQ_TOLERANCE
      then 1 - |freq - SCHUMANN_RESONANCE| / MAX_FREQ_TOLERANCE else 0) := by
    split_ifs with hd
    · have h25 : (0 : ℚ) < MAX_FREQ_TOLERANCE := by norm_num [MAX_FREQ_TOLERANCE]
      have hle : |freq - SCHUMANN_RESONANCE| / MAX_FREQ_TOLERANCE ≤ 1 :=
        (div_le_one h25).mpr hd
      linarith
    · exact le_rfl
  show clamp ((if |freq - SCHUMANN_RESONANCE| ≤ MAX_FREQ_TOLERANCE
      then 1 - |freq - SCHUMANN_RESONANCE| / MAX_FREQ_TOLERANCE else 0) * (1 - emf)) 0 1 = 0
  exact clamp_eq_zero_of_nonpos _ (mul_nonpos_of_nonneg_of_nonpos hscore (by linarith))

/-- Witness for C9: at `freq = 7.83`, `emf = 1.5` the hypothesis holds and
the MCI is `0`. -/
theorem mci_zero_for_full_noise_witness :
    (1 : ℚ) ≤ 1.5 ∧ calculate_MCI 7.83 1.5 = 0 :=
  ⟨by norm_num, mci_zero_for_full_noise 7.83 1.5 (by norm_num)⟩

/-- C10: for non-negative magnetic field and atmospheric pressure, Pipeline B's
MCR and BVI are non-negative (so of the three unclamped metrics only GEI can
go negative under the UI's non-negative input bounds). -/
theorem pipelineB_mcr_bvi_nonneg (magnetic_field atmospheric_pressure : ℚ)
    (hm : 0 ≤ magnetic_field) (hp : 0 ≤ atmospheric_pressure) :
    0 ≤ calculate_mcr magnetic_field ∧
    0 ≤ calculate_bvi (calculate_mcr magnetic_field) atmospheric_pressure := by
  have h1 : 0 ≤ calculate_mcr magnetic_field :=
    round2_nonneg _ (by positivity)
  refine ⟨h1, ?_⟩
  exact round2_nonneg _ (div_nonneg (mul_nonneg h1 hp) (by norm_num))

/-- Witness for C10: the hypotheses discharged at Earth's defaults
(50 µT, 101325 Pa). -/
theorem pipelineB_mcr_bvi_nonneg_witness :
    (0 : ℚ) ≤ 50 ∧ (0 : ℚ) ≤ 101325 ∧ 0 ≤ calculate_mcr 50 ∧
    0 ≤ calculate_bvi (calculate_mcr 50) 101325 :=
  ⟨by norm_num, by norm_num,
    (pipelineB_mcr_bvi_nonneg 50 101325 (by norm_num) (by norm_num)).1,
    (pipelineB_mcr_bvi_nonneg 50 101325 (by norm_num) (by norm_num)).2⟩

end EMRP
